import Mathlib

/-! Tarifario browser controller (`src/api/static/js/main.js`).

A shallow embedding of the client-side controller: the query parameters built by
`fetchData` and by the CSV-export handler, the state update performed by `fetchData`,
the pagination window of `renderPagination`, the sort-header handler, the
compare-checkbox handler and the comparison table of `renderComparisonModal`.

Conventions of the embedding:
* JavaScript numbers that hold page counts and page numbers are `Int`.
* A `URLSearchParams` object is the ordered list of its `(key, value)` string pairs.
* A fetched record is the ordered list of its own `(key, value)` properties.
* The pagination markup, which interpolates numbers only, is represented by the sequence
  of `li` elements it contains.
* The comparison table, which interpolates record values unescaped, is represented by
  the markup text assigned to `innerHTML`.
-/

namespace Tarifario

/-! ## State (main.js lines 3-8, 11-30) -/

/-- The constant `limit` (line 5). -/
def limit : Int := 20

/-- The object `currentSort` (line 6): the fields `by` and `order`. -/
structure SortSpec where
  sortBy : String
  order : String
deriving DecidableEq, Repr

/-- The `.value` strings of the nine filter controls of `elements` (lines 12-20). -/
structure FilterValues where
  bancoFilter : String
  tipoFilter : String
  monedaFilter : String
  tasaMnMin : String
  tasaMnMax : String
  tasaMeMin : String
  tasaMeMax : String
  productoSearch : String
  conceptoSearch : String
deriving DecidableEq, Repr

/-- A `URLSearchParams` value: its entries in insertion order. -/
abbrev Params := List (String × String)

/-! ## Query parameters (lines 148-171 and 201-222) -/

/-- The object literal `filters` (lines 157-167 and 208-218), in property order. -/
def filters (e : FilterValues) : Params :=
  [("banco", e.bancoFilter),
   ("tipo", e.tipoFilter),
   ("moneda", e.monedaFilter),
   ("producto", e.productoSearch),
   ("concepto", e.conceptoSearch),
   ("tasa_mn_gte", e.tasaMnMin),
   ("tasa_mn_lte", e.tasaMnMax),
   ("tasa_me_gte", e.tasaMeMin),
   ("tasa_me_lte", e.tasaMeMax)]

/-- The loop `for (const [key, value] of Object.entries(filters)) if (value) params.append(key, value)`
(lines 169-171 and 220-222). A string is truthy exactly when it is not empty. -/
def appendFilters (params : Params) (fs : Params) : Params :=
  fs.foldl (fun p kv => if kv.2 ≠ "" then p ++ [kv] else p) params

/-- The parameters `fetchData` builds (lines 149-171). `new URLSearchParams` turns the
numbers `skip` and `limit` into their decimal text. -/
def fetchParams (currentPage : Int) (currentSort : SortSpec) (e : FilterValues) : Params :=
  let skip := (currentPage - 1) * limit
  appendFilters
    [("skip", toString skip),
     ("limit", toString limit),
     ("sort_by", currentSort.sortBy),
     ("sort_order", currentSort.order)]
    (filters e)

/-- The parameters the CSV-export click handler builds (lines 203-222). -/
def exportParams (currentSort : SortSpec) (e : FilterValues) : Params :=
  appendFilters
    [("sort_by", currentSort.sortBy),
     ("sort_order", currentSort.order)]
    (filters e)

/-- The keys of a parameter list, in order. -/
def paramKeys (p : Params) : List String := p.map Prod.fst

/-- The first value stored under a key (`URLSearchParams.get`). -/
def paramGet (p : Params) (k : String) : Option String := List.lookup k p

/-- The nine filter keys, in the order of the object literal. -/
def filterKeys : List String :=
  ["banco", "tipo", "moneda", "producto", "concepto",
   "tasa_mn_gte", "tasa_mn_lte", "tasa_me_gte", "tasa_me_lte"]

/-! ## Fetched records and `JSON.stringify` -/

/-- A JSON scalar held by a record field. A number is carried by the decimal text that
JavaScript prints for it, which is also what `JSON.stringify` writes. -/
inductive JVal where
  | null
  | bool (b : Bool)
  | num (text : String)
  | str (s : String)
deriving DecidableEq, Repr

/-- A fetched record: its own properties in key order. -/
abbrev Item := List (String × JVal)

/-- Lower-case hexadecimal digit. -/
def hexDigit (n : Nat) : Char :=
  if n < 10 then Char.ofNat (48 + n) else Char.ofNat (87 + n)

/-- The escape `JSON.stringify` writes for one character of a string. -/
def escapeChar (c : Char) : String :=
  if c = Char.ofNat 34 then "\\\""
  else if c = Char.ofNat 92 then "\\\\"
  else if c = Char.ofNat 8 then "\\b"
  else if c = Char.ofNat 12 then "\\f"
  else if c = Char.ofNat 10 then "\\n"
  else if c = Char.ofNat 13 then "\\r"
  else if c = Char.ofNat 9 then "\\t"
  else if c.toNat < 32 then
    "\\u00" ++ String.mk [hexDigit (c.toNat / 16), hexDigit (c.toNat % 16)]
  else String.singleton c

/-- A string as `JSON.stringify` quotes it. -/
def jsonQuote (s : String) : String :=
  "\"" ++ String.join (s.toList.map escapeChar) ++ "\""

/-- The text `JSON.stringify` writes for a scalar. -/
def jsonValue : JVal → String
  | JVal.null => "null"
  | JVal.bool true => "true"
  | JVal.bool false => "false"
  | JVal.num text => text
  | JVal.str s => jsonQuote s

/-- The text `JSON.stringify` writes for a record (lines 285 and 290). -/
def stringify (item : Item) : String :=
  "\x7b" ++ ",".intercalate (item.map (fun kv => jsonQuote kv.1 ++ ":" ++ jsonValue kv.2)) ++ "\x7d"

/-- The members every record inherits from `Object.prototype` (`constructor`, `toString`
and so on): the name of each with the text JavaScript prints for it. The table belongs to
the JavaScript engine, so the functions that read a property take it as a parameter. -/
abbrev Prototype := List (String × String)

/-- The result of a property read: `undefined`, a JSON scalar of the record, or a member
inherited from `Object.prototype`, carried by the text JavaScript prints for it. -/
inductive JsValue where
  | undefined
  | json (v : JVal)
  | inherited (text : String)
deriving DecidableEq, Repr

/-- Property read `item[attr]`: the own property when the record has one, else the member
inherited from `Object.prototype`, else `undefined`. -/
def itemProp (proto : Prototype) (item : Item) (attr : String) : JsValue :=
  match List.lookup attr item with
  | some v => JsValue.json v
  | none =>
    match List.lookup attr proto with
    | some text => JsValue.inherited text
    | none => JsValue.undefined

/-- The result of `Object.keys(item)`. -/
def itemKeys (item : Item) : List String := item.map Prod.fst

/-! ## Pagination (lines 89-111 and 227-233) -/

/-- One `li` element of the pagination list. `anterior`, `link` and `siguiente` hold an
anchor with a `data-page` attribute; `active` and `ellipsis` hold a `span`. The flag
`disabled` records the class `disabled` on the `li`. -/
inductive PageEntry where
  | anterior (disabled : Bool) (dataPage : Int)
  | active (page : Int)
  | link (dataPage : Int)
  | ellipsis
  | siguiente (disabled : Bool) (dataPage : Int)
deriving DecidableEq, Repr

/-- The body of the loop of `renderPagination` for one value of `i` (lines 99-105). -/
def pageItem (total_pages current_page i : Int) : Option PageEntry :=
  if i = current_page then some (PageEntry.active i)
  else if i ≤ 2 ∨ i ≥ total_pages - 1 ∨ (i ≥ current_page - 1 ∧ i ≤ current_page + 1) then
    some (PageEntry.link i)
  else if i = 3 ∨ i = total_pages - 2 then some PageEntry.ellipsis
  else none

/-- The values `i = 1, ..., total_pages` the loop of line 98 runs through. -/
def pageIndices (total_pages : Int) : List Int :=
  (List.range total_pages.toNat).map (fun (k : Nat) => (k : Int) + 1)

/-- The function `renderPagination` (lines 89-111): the `li` elements written into
`paginationControls`, the empty list when the controls are cleared. -/
def renderPagination (_total_items total_pages current_page : Int) : List PageEntry :=
  if total_pages ≤ 1 then []
  else
    [PageEntry.anterior (current_page = 1) (current_page - 1)]
      ++ (pageIndices total_pages).filterMap (pageItem total_pages current_page)
      ++ [PageEntry.siguiente (current_page = total_pages) (current_page + 1)]

/-- The `data-page` attribute of the anchor of an entry, when the entry holds an anchor. -/
def PageEntry.dataPage? : PageEntry → Option Int
  | PageEntry.anterior _ n => some n
  | PageEntry.link n => some n
  | PageEntry.siguiente _ n => some n
  | PageEntry.active _ => none
  | PageEntry.ellipsis => none

/-- Whether the `li` of an entry carries the class `disabled`. -/
def PageEntry.isDisabled : PageEntry → Bool
  | PageEntry.anterior d _ => d
  | PageEntry.siguiente d _ => d
  | PageEntry.ellipsis => true
  | PageEntry.active _ => false
  | PageEntry.link _ => false

/-- The page number an entry displays (the active page and the numbered links). -/
def PageEntry.page? : PageEntry → Option Int
  | PageEntry.active n => some n
  | PageEntry.link n => some n
  | _ => none

/-- The page entries of a window, ellipses and the two outer controls aside. -/
def pageNumbers (w : List PageEntry) : List Int := w.filterMap PageEntry.page?

/-- Number of ellipsis markers of a window. -/
def ellipsisCount (w : List PageEntry) : Nat := w.count PageEntry.ellipsis

/-- Whether page `i` is displayed by `renderPagination` (as active page or as link). -/
def isShown (total_pages current_page i : Int) : Bool :=
  (pageItem total_pages current_page i).bind PageEntry.page? != none

/-- Number of gaps of the window: maximal runs of consecutive pages of
`1..total_pages` that are not displayed, counted by their first page. -/
def gapCount (total_pages current_page : Int) : Nat :=
  ((pageIndices total_pages).filter (fun i =>
    !isShown total_pages current_page i && (i = 1 || isShown total_pages current_page (i - 1)))).length

/-- The click handler of `paginationControls` (lines 227-233) for a click on the anchor
or span of entry `e`: the new value of `currentPage`. -/
def paginationClick (e : PageEntry) (currentPage : Int) : Int :=
  match e.dataPage? with
  | some n => n
  | none => currentPage

/-! ## Sorting (lines 113-129 and 235-247) -/

/-- The keys of `headers` in `renderTableHeaders` (lines 114-124). -/
def headerKeys : List String :=
  ["compare", "Banco", "Producto_Nombre", "Concepto", "Tipo", "Moneda",
   "Valor (MN)", "Valor (ME)", "acciones"]

/-- The keys whose `th` gets the class `sortable-header` (line 127). -/
def sortableKeys : List String :=
  headerKeys.filter (fun k => k ≠ "acciones" ∧ k ≠ "compare")

/-- The click handler of `tableHead` (lines 235-247). `header` is the `data-sort-by` of
the closest `.sortable-header`, `none` when there is no such element. -/
def tableHeadClick (header : Option String) (currentSort : SortSpec) : SortSpec :=
  match header with
  | none => currentSort
  | some sortBy =>
    if currentSort.sortBy = sortBy then
      { currentSort with order := if currentSort.order = "asc" then "desc" else "asc" }
    else
      { sortBy := sortBy, order := "asc" }

/-! ## Controller state and `fetchData` (lines 4-8 and 148-179) -/

/-- The mutable variables of the controller together with the rendered pagination. -/
structure State where
  currentPage : Int
  currentSort : SortSpec
  currentItems : List Item
  comparisonList : List Item
  paginationControls : List PageEntry
deriving DecidableEq, Repr

/-- The body of a successful dataset response. -/
structure Response where
  items : List Item
  total_items : Int
  total_pages : Int
  current_page : Int
deriving DecidableEq, Repr

/-- The function `fetchData` after the request resolved (lines 173-178). `data` is the
value of `api.get`: `none` for `null`. -/
def fetchData (s : State) (data : Option Response) : State :=
  match data with
  | none => s
  | some d =>
    { s with
      currentItems := d.items
      paginationControls := renderPagination d.total_items d.total_pages d.current_page }

/-! ## Comparison list (lines 277-293 and 316-343) -/

/-- The compare-checkbox branch after the record was read (lines 282-291). -/
def compareToggle (item : Item) (isChecked : Bool) (comparisonList : List Item) : List Item :=
  if isChecked then
    if !(comparisonList.any (fun compItem => stringify compItem == stringify item)) then
      comparisonList ++ [item]
    else comparisonList
  else
    comparisonList.filter (fun compItem => stringify compItem != stringify item)

/-- The compare-checkbox click handler (lines 277-293): the new `comparisonList`. -/
def compareCheckboxClick (currentItems comparisonList : List Item) (index : Nat)
    (isChecked : Bool) : List Item :=
  match currentItems[index]? with
  | none => comparisonList
  | some item => compareToggle item isChecked comparisonList

/-- One click on a compare checkbox: the page shown at that time, the row and the state
of the box after the click. -/
structure CompareClick where
  currentItems : List Item
  index : Nat
  isChecked : Bool
deriving DecidableEq, Repr

/-- The comparison list after a sequence of clicks, starting from the empty list. -/
def runCompare (clicks : List CompareClick) : List Item :=
  clicks.foldl (fun l c => compareCheckboxClick c.currentItems l c.index c.isChecked) []

/-- The records selected by the clicks that checked a box, in click order. -/
def selections (clicks : List CompareClick) : List Item :=
  clicks.filterMap (fun c => if c.isChecked then c.currentItems[c.index]? else none)

/-- The test the handler uses to identify two records. -/
def sameRecord (a b : Item) : Prop := stringify a = stringify b

instance (a b : Item) : Decidable (sameRecord a b) := by
  unfold sameRecord; infer_instance

/-- JavaScript truthiness of a property value. -/
def truthy : JsValue → Bool
  | JsValue.undefined => false
  | JsValue.json JVal.null => false
  | JsValue.json (JVal.bool b) => b
  | JsValue.json (JVal.num text) => text != "0"
  | JsValue.json (JVal.str s) => s != ""
  | JsValue.inherited _ => true

/-- The text a template literal writes for a value (lines 325 and 336). A string is
written as it is, without escaping. -/
def toText : JsValue → String
  | JsValue.undefined => "undefined"
  | JsValue.json JVal.null => "null"
  | JsValue.json (JVal.bool true) => "true"
  | JsValue.json (JVal.bool false) => "false"
  | JsValue.json (JVal.num text) => text
  | JsValue.json (JVal.str s) => s
  | JsValue.inherited text => text

/-- The value of line 335: `item[attr]`, or the text `-` when that is `null` or
`undefined`. -/
def cellValue (proto : Prototype) (item : Item) (attr : String) : JsValue :=
  match itemProp proto item attr with
  | JsValue.undefined => JsValue.json (JVal.str "-")
  | JsValue.json JVal.null => JsValue.json (JVal.str "-")
  | v => v

/-- The value `item.Producto_Nombre || item.Concepto` of line 325. -/
def headerValue (proto : Prototype) (item : Item) : JsValue :=
  if truthy (itemProp proto item "Producto_Nombre") then itemProp proto item "Producto_Nombre"
  else itemProp proto item "Concepto"

/-- The list `attributes` of line 318: `Object.keys(currentItems[0] || \x7b\x7d)`. -/
def attributes (currentItems : List Item) : List String :=
  match currentItems[0]? with
  | none => []
  | some item => itemKeys item

/-- The label of line 333, `attr.replace` of every underscore by a space. -/
def underscoresToSpaces (attr : String) : String :=
  String.mk (attr.toList.map (fun c => if c = Char.ofNat 95 then Char.ofNat 32 else c))

/-- The function `renderComparisonModal` (lines 316-343): the markup `tableHtml` assigned
to `modalBody.innerHTML`. Each `forEach` is a left fold over the string built so far. -/
def renderComparisonModal (proto : Prototype) (currentItems comparisonList : List Item) :
    String :=
  let attributes := attributes currentItems
  let tableHtml :=
    "<div class=\"table-responsive\"><table class=\"table table-bordered table-hover\">"
  let tableHtml := tableHtml ++ "<thead><tr><th class=\"table-light\">Atributo</th>"
  let tableHtml := comparisonList.foldl (fun tableHtml item =>
    tableHtml ++ ("<th class=\"table-light\">" ++ toText (headerValue proto item) ++ "</th>"))
    tableHtml
  let tableHtml := tableHtml ++ "</tr></thead>"
  let tableHtml := tableHtml ++ "<tbody>"
  let tableHtml := attributes.foldl (fun tableHtml attr =>
    if attr = "Producto_Codigo" then tableHtml
    else
      let tableHtml := tableHtml ++
        ("<tr><td class=\"fw-bold table-light\">" ++ underscoresToSpaces attr ++ "</td>")
      let tableHtml := comparisonList.foldl (fun tableHtml item =>
        let value := cellValue proto item attr
        tableHtml ++ ("<td>" ++ toText value ++ "</td>")) tableHtml
      tableHtml ++ "</tr>") tableHtml
  tableHtml ++ "</tbody></table></div>"

/-! ## The comparison table as the claims describe it -/

/-- Concatenation of a list of markup fragments. -/
def concatAll : List String → String
  | [] => ""
  | s :: rest => s ++ concatAll rest

/-- One `td` of a body row: the text of the value of `attr` on `item`, or `-`. -/
def cellMarkup (proto : Prototype) (attr : String) (item : Item) : String :=
  "<td>" ++ toText (cellValue proto item attr) ++ "</td>"

/-- One `th` of the header row, for one record. -/
def headerCellMarkup (proto : Prototype) (item : Item) : String :=
  "<th class=\"table-light\">" ++ toText (headerValue proto item) ++ "</th>"

/-- One body row: the label cell of `attr` followed by one `td` per record of `records`,
in the order of `records`. -/
def rowMarkup (proto : Prototype) (records : List Item) (attr : String) : String :=
  "<tr><td class=\"fw-bold table-light\">" ++ underscoresToSpaces attr ++ "</td>"
    ++ concatAll (records.map (cellMarkup proto attr)) ++ "</tr>"

/-- The table with one header cell per record of `records` and one body row per
attribute of `attrs`, rows in the order of `attrs` and columns in the order of `records`. -/
def tableMarkup (proto : Prototype) (attrs : List String) (records : List Item) : String :=
  "<div class=\"table-responsive\"><table class=\"table table-bordered table-hover\">"
    ++ "<thead><tr><th class=\"table-light\">Atributo</th>"
    ++ concatAll (records.map (headerCellMarkup proto))
    ++ "</tr></thead>" ++ "<tbody>"
    ++ concatAll (attrs.map (rowMarkup proto records))
    ++ "</tbody></table></div>"

end Tarifario

namespace Tarifario

/-! ## Lemmas on the parameter lists -/

theorem appendFilters_eq (params fs : Params) :
    appendFilters params fs = params ++ fs.filter (fun kv => kv.2 ≠ "") := by
  unfold appendFilters
  induction fs generalizing params with
  | nil => simp
  | cons kv rest ih =>
    rw [List.foldl_cons, ih]
    by_cases h : kv.2 = ""
    · simp [h]
    · simp [h]

theorem filters_keys (e : FilterValues) : (filters e).map Prod.fst = filterKeys := rfl

end Tarifario

namespace Tarifario

theorem lookup_of_mem_of_nodup {β : Type} :
    ∀ (l : List (String × β)) (k : String) (v : β),
      (l.map Prod.fst).Nodup → (k, v) ∈ l → List.lookup k l = some v
  | [], _, _, _, h => by simp at h
  | (k', v') :: rest, k, v, hnd, h => by
    rw [List.map_cons, List.nodup_cons] at hnd
    rcases List.mem_cons.mp h with heq | hmem
    · cases heq
      simp [List.lookup_cons]
    · have hne : k ≠ k' := by
        intro hk
        apply hnd.1
        rw [← hk]
        exact List.mem_map.mpr ⟨(k, v), hmem, rfl⟩
      have hb : (k == k') = false := by simpa using hne
      rw [List.lookup_cons, hb]
      exact lookup_of_mem_of_nodup rest k v hnd.2 hmem

theorem filters_nonempty_keys_sublist (e : FilterValues) :
    (((filters e).filter (fun kv => kv.2 ≠ "")).map Prod.fst).Sublist filterKeys := by
  rw [← filters_keys e]
  exact (List.filter_sublist _).map Prod.fst

theorem filterKeys_nodup : filterKeys.Nodup := by decide

theorem fetchParams_eq (currentPage : Int) (currentSort : SortSpec) (e : FilterValues) :
    fetchParams currentPage currentSort e =
      ("skip", toString ((currentPage - 1) * limit)) :: ("limit", toString limit) ::
        exportParams currentSort e := by
  simp [fetchParams, exportParams, appendFilters_eq]

theorem exportParams_eq (currentSort : SortSpec) (e : FilterValues) :
    exportParams currentSort e =
      ("sort_by", currentSort.sortBy) :: ("sort_order", currentSort.order) ::
        (filters e).filter (fun kv => kv.2 ≠ "") := by
  simp [exportParams, appendFilters_eq]

end Tarifario

namespace Tarifario

theorem exportParams_keys (currentSort : SortSpec) (e : FilterValues) :
    paramKeys (exportParams currentSort e) =
      "sort_by" :: "sort_order" :: paramKeys ((filters e).filter (fun kv => kv.2 ≠ "")) := by
  rw [exportParams_eq]; rfl

theorem not_mem_nonempty_keys (e : FilterValues) (k : String) (hk : k ∉ filterKeys) :
    k ∉ paramKeys ((filters e).filter (fun kv => kv.2 ≠ "")) :=
  fun h => hk ((filters_nonempty_keys_sublist e).subset h)

theorem mem_nonempty_keys_iff (e : FilterValues) (k v : String) (h : (k, v) ∈ filters e) :
    k ∈ paramKeys ((filters e).filter (fun kv => kv.2 ≠ "")) ↔ v ≠ "" := by
  have hnd : ((filters e).map Prod.fst).Nodup := by rw [filters_keys]; exact filterKeys_nodup
  constructor
  · intro hk
    obtain ⟨⟨k', v'⟩, hmem, hfst⟩ := List.mem_map.mp hk
    simp only at hfst
    subst hfst
    rw [List.mem_filter] at hmem
    have h1 := lookup_of_mem_of_nodup (filters e) k' v hnd h
    have h2 := lookup_of_mem_of_nodup (filters e) k' v' hnd hmem.1
    have hv : v = v' := Option.some.inj (h1.symm.trans h2)
    subst hv
    simpa using hmem.2
  · intro hv
    exact List.mem_map.mpr ⟨(k, v), List.mem_filter.mpr ⟨h, by simpa using hv⟩, rfl⟩

theorem get_nonempty_filter (e : FilterValues) (k v : String) (h : (k, v) ∈ filters e)
    (hv : v ≠ "") : List.lookup k ((filters e).filter (fun kv => kv.2 ≠ "")) = some v := by
  apply lookup_of_mem_of_nodup
  · exact filterKeys_nodup.sublist (filters_nonempty_keys_sublist e)
  · exact List.mem_filter.mpr ⟨h, by simpa using hv⟩

theorem mem_filterKeys_of_mem (e : FilterValues) (k v : String) (h : (k, v) ∈ filters e) :
    k ∈ filterKeys := by
  rw [← filters_keys e]
  exact List.mem_map.mpr ⟨(k, v), h, rfl⟩

theorem lookup_eq_none_of_not_mem {β : Type} :
    ∀ (l : List (String × β)) (k : String), k ∉ l.map Prod.fst → List.lookup k l = none
  | [], _, _ => rfl
  | (k', v') :: rest, k, h => by
    rw [List.map_cons, List.mem_cons, not_or] at h
    have hb : (k == k') = false := by simpa using h.1
    rw [List.lookup_cons, hb]
    exact lookup_eq_none_of_not_mem rest k h.2

theorem fetchParams_get_filter (currentPage : Int) (currentSort : SortSpec)
    (e : FilterValues) (k v : String) (h : (k, v) ∈ filters e) :
    paramGet (fetchParams currentPage currentSort e) k = if v = "" then none else some v := by
  have hbase : ∀ k, k ∈ filterKeys → k ∉ ["skip", "limit", "sort_by", "sort_order"] := by
    decide
  have hk := hbase k (mem_filterKeys_of_mem e k v h)
  simp only [List.mem_cons, List.mem_singleton, List.not_mem_nil, or_false, not_or] at hk
  obtain ⟨h1, h2, h3, h4⟩ := hk
  have b1 : (k == "skip") = false := by simpa using h1
  have b2 : (k == "limit") = false := by simpa using h2
  have b3 : (k == "sort_by") = false := by simpa using h3
  have b4 : (k == "sort_order") = false := by simpa using h4
  rw [fetchParams_eq, exportParams_eq]
  simp only [paramGet, List.lookup_cons, b1, b2, b3, b4]
  by_cases hv : v = ""
  · rw [if_pos hv]
    apply lookup_eq_none_of_not_mem
    intro hmem
    exact (mem_nonempty_keys_iff e k v h).mp hmem hv
  · rw [if_neg hv]
    exact get_nonempty_filter e k v h hv

/-- C1: the parameter set of `fetchData` has the keys skip, limit, sort_by, sort_order
followed by exactly the filter keys whose field is a non-empty string (no key twice);
skip is (currentPage - 1) * 20, limit is 20, sort_by and sort_order carry the active
sort spec, and each of the nine filter keys banco, tipo, moneda, producto, concepto,
tasa_mn_gte, tasa_mn_lte, tasa_me_gte, tasa_me_lte is absent when the value of its
control is empty and carries that value unchanged otherwise. -/
theorem fetchParams_spec (currentPage : Int) (currentSort : SortSpec) (e : FilterValues) :
    paramKeys (fetchParams currentPage currentSort e) =
        ["skip", "limit", "sort_by", "sort_order"] ++
          paramKeys ((filters e).filter (fun kv => kv.2 ≠ ""))
      ∧ (paramKeys (fetchParams currentPage currentSort e)).Nodup
      ∧ (∀ k v, (k, v) ∈ filters e →
          (k ∈ paramKeys (fetchParams currentPage currentSort e) ↔ v ≠ ""))
      ∧ paramGet (fetchParams currentPage currentSort e) "skip"
          = some (toString ((currentPage - 1) * 20))
      ∧ paramGet (fetchParams currentPage currentSort e) "limit" = some "20"
      ∧ paramGet (fetchParams currentPage currentSort e) "sort_by" = some currentSort.sortBy
      ∧ paramGet (fetchParams currentPage currentSort e) "sort_order" = some currentSort.order
      ∧ (∀ k v, (k, v) ∈ filters e → v ≠ "" →
          paramGet (fetchParams currentPage currentSort e) k = some v)
      ∧ filters e =
          [("banco", e.bancoFilter), ("tipo", e.tipoFilter), ("moneda", e.monedaFilter),
           ("producto", e.productoSearch), ("concepto", e.conceptoSearch),
           ("tasa_mn_gte", e.tasaMnMin), ("tasa_mn_lte", e.tasaMnMax),
           ("tasa_me_gte", e.tasaMeMin), ("tasa_me_lte", e.tasaMeMax)]
      ∧ (∀ k, k ∈ paramKeys (fetchParams currentPage currentSort e) ↔
          k ∈ ["skip", "limit", "sort_by", "sort_order"]
          ∨ (k = "banco" ∧ e.bancoFilter ≠ "") ∨ (k = "tipo" ∧ e.tipoFilter ≠ "")
          ∨ (k = "moneda" ∧ e.monedaFilter ≠ "") ∨ (k = "producto" ∧ e.productoSearch ≠ "")
          ∨ (k = "concepto" ∧ e.conceptoSearch ≠ "")
          ∨ (k = "tasa_mn_gte" ∧ e.tasaMnMin ≠ "") ∨ (k = "tasa_mn_lte" ∧ e.tasaMnMax ≠ "")
          ∨ (k = "tasa_me_gte" ∧ e.tasaMeMin ≠ "") ∨ (k = "tasa_me_lte" ∧ e.tasaMeMax ≠ ""))
      ∧ paramGet (fetchParams currentPage currentSort e) "banco"
          = (if e.bancoFilter = "" then none else some e.bancoFilter)
      ∧ paramGet (fetchParams currentPage currentSort e) "tipo"
          = (if e.tipoFilter = "" then none else some e.tipoFilter)
      ∧ paramGet (fetchParams currentPage currentSort e) "moneda"
          = (if e.monedaFilter = "" then none else some e.monedaFilter)
      ∧ paramGet (fetchParams currentPage currentSort e) "producto"
          = (if e.productoSearch = "" then none else some e.productoSearch)
      ∧ paramGet (fetchParams currentPage currentSort e) "concepto"
          = (if e.conceptoSearch = "" then none else some e.conceptoSearch)
      ∧ paramGet (fetchParams currentPage currentSort e) "tasa_mn_gte"
          = (if e.tasaMnMin = "" then none else some e.tasaMnMin)
      ∧ paramGet (fetchParams currentPage currentSort e) "tasa_mn_lte"
          = (if e.tasaMnMax = "" then none else some e.tasaMnMax)
      ∧ paramGet (fetchParams currentPage currentSort e) "tasa_me_gte"
          = (if e.tasaMeMin = "" then none else some e.tasaMeMin)
      ∧ paramGet (fetchParams currentPage currentSort e) "tasa_me_lte"
          = (if e.tasaMeMax = "" then none else some e.tasaMeMax) := by
  have hkeys : paramKeys (fetchParams currentPage currentSort e) =
      ["skip", "limit", "sort_by", "sort_order"] ++
        paramKeys ((filters e).filter (fun kv => kv.2 ≠ "")) := by
    rw [fetchParams_eq, exportParams_eq]; rfl
  have hbase : ∀ k, k ∈ filterKeys → k ∉ ["skip", "limit", "sort_by", "sort_order"] := by
    decide
  have hg := fetchParams_get_filter currentPage currentSort e
  refine ⟨hkeys, ?_, ?_, ?_, ?_, ?_, ?_, ?_, rfl, ?_,
    hg _ _ (by simp [filters]), hg _ _ (by simp [filters]), hg _ _ (by simp [filters]),
    hg _ _ (by simp [filters]), hg _ _ (by simp [filters]), hg _ _ (by simp [filters]),
    hg _ _ (by simp [filters]), hg _ _ (by simp [filters]), hg _ _ (by simp [filters])⟩
  · rw [hkeys]
    refine List.Nodup.append (by decide)
      (filterKeys_nodup.sublist (filters_nonempty_keys_sublist e)) ?_
    intro k hk1 hk2
    exact hbase k ((filters_nonempty_keys_sublist e).subset hk2) hk1
  · intro k v h
    rw [hkeys, List.mem_append, ← mem_nonempty_keys_iff e k v h]
    constructor
    · rintro (hb | hf)
      · exact absurd hb (hbase k (mem_filterKeys_of_mem e k v h))
      · exact hf
    · exact Or.inr
  · rw [fetchParams_eq]; simp [paramGet, List.lookup_cons, limit]
  · rw [fetchParams_eq]; simp [paramGet, List.lookup_cons, limit]; rfl
  · rw [fetchParams_eq, exportParams_eq]; simp [paramGet, List.lookup_cons]
  · rw [fetchParams_eq, exportParams_eq]; simp [paramGet, List.lookup_cons]
  · intro k v h hv
    have hk := hbase k (mem_filterKeys_of_mem e k v h)
    simp only [List.mem_cons, List.mem_singleton, List.not_mem_nil, or_false, not_or] at hk
    obtain ⟨h1, h2, h3, h4⟩ := hk
    rw [fetchParams_eq, exportParams_eq]
    have b1 : (k == "skip") = false := by simpa using h1
    have b2 : (k == "limit") = false := by simpa using h2
    have b3 : (k == "sort_by") = false := by simpa using h3
    have b4 : (k == "sort_order") = false := by simpa using h4
    simp only [paramGet, List.lookup_cons, b1, b2, b3, b4]
    exact get_nonempty_filter e k v h hv
  · intro k
    rw [hkeys, List.mem_append]
    apply or_congr Iff.rfl
    simp only [paramKeys, List.mem_map, List.mem_filter, Prod.exists, filters,
      List.mem_cons, Prod.mk.injEq, List.mem_singleton, List.not_mem_nil, or_false]
    constructor
    · rintro ⟨a, b, ⟨hab, hb⟩, rfl⟩
      have hb' : b ≠ "" := by simpa using hb
      rcases hab with h | h | h | h | h | h | h | h | h <;> obtain ⟨rfl, rfl⟩ := h <;>
        simp [hb']
    · intro h
      rcases h with h | h | h | h | h | h | h | h | h <;> obtain ⟨rfl, hv⟩ := h
      · exact ⟨_, e.bancoFilter, ⟨by simp, by simpa using hv⟩, rfl⟩
      · exact ⟨_, e.tipoFilter, ⟨by simp, by simpa using hv⟩, rfl⟩
      · exact ⟨_, e.monedaFilter, ⟨by simp, by simpa using hv⟩, rfl⟩
      · exact ⟨_, e.productoSearch, ⟨by simp, by simpa using hv⟩, rfl⟩
      · exact ⟨_, e.conceptoSearch, ⟨by simp, by simpa using hv⟩, rfl⟩
      · exact ⟨_, e.tasaMnMin, ⟨by simp, by simpa using hv⟩, rfl⟩
      · exact ⟨_, e.tasaMnMax, ⟨by simp, by simpa using hv⟩, rfl⟩
      · exact ⟨_, e.tasaMeMin, ⟨by simp, by simpa using hv⟩, rfl⟩
      · exact ⟨_, e.tasaMeMax, ⟨by simp, by simpa using hv⟩, rfl⟩

/-- Witness for C1: page 3, sort by Banco ascending, only the fields banco and
tasa_mn_gte filled in. -/
theorem fetchParams_spec_witness :
    fetchParams 3 ⟨"Banco", "asc"⟩ ⟨"BCP", "", "", "1.5", "", "", "", "", ""⟩ =
      [("skip", "40"), ("limit", "20"), ("sort_by", "Banco"), ("sort_order", "asc"),
       ("banco", "BCP"), ("tasa_mn_gte", "1.5")]
    ∧ paramGet (fetchParams 3 ⟨"Banco", "asc"⟩ ⟨"BCP", "", "", "1.5", "", "", "", "", ""⟩) "skip"
        = some (toString (((3 : Int) - 1) * 20)) :=
  ⟨by decide, (fetchParams_spec 3 ⟨"Banco", "asc"⟩ ⟨"BCP", "", "", "1.5", "", "", "", "", ""⟩).2.2.2.1⟩

end Tarifario

namespace Tarifario

/-- C2: the export parameter set has neither skip nor limit, agrees with the parameter
set of `fetchData` on every key of both, and the dataset parameters are the export
parameters with exactly skip and limit put in front (dropping the two gives the export
parameters back, in the same order). -/
theorem exportParams_spec (currentPage : Int) (currentSort : SortSpec) (e : FilterValues) :
    "skip" ∉ paramKeys (exportParams currentSort e)
      ∧ "limit" ∉ paramKeys (exportParams currentSort e)
      ∧ (∀ k, k ∈ paramKeys (exportParams currentSort e) →
          k ∈ paramKeys (fetchParams currentPage currentSort e) →
          paramGet (exportParams currentSort e) k
            = paramGet (fetchParams currentPage currentSort e) k)
      ∧ fetchParams currentPage currentSort e =
          ("skip", toString ((currentPage - 1) * 20)) :: ("limit", "20") ::
            exportParams currentSort e
      ∧ (fetchParams currentPage currentSort e).filter
            (fun kv => kv.1 ≠ "skip" ∧ kv.1 ≠ "limit")
          = exportParams currentSort e := by
  have hskip : "skip" ∉ paramKeys (exportParams currentSort e) := by
    rw [exportParams_keys]
    intro h
    rcases List.mem_cons.mp h with h | h
    · exact absurd h (by decide)
    rcases List.mem_cons.mp h with h | h
    · exact absurd h (by decide)
    · exact not_mem_nonempty_keys e "skip" (by decide) h
  have hlimit : "limit" ∉ paramKeys (exportParams currentSort e) := by
    rw [exportParams_keys]
    intro h
    rcases List.mem_cons.mp h with h | h
    · exact absurd h (by decide)
    rcases List.mem_cons.mp h with h | h
    · exact absurd h (by decide)
    · exact not_mem_nonempty_keys e "limit" (by decide) h
  have hfetch : fetchParams currentPage currentSort e =
      ("skip", toString ((currentPage - 1) * 20)) :: ("limit", "20") ::
        exportParams currentSort e := by
    rw [fetchParams_eq]; rfl
  refine ⟨hskip, hlimit, ?_, hfetch, ?_⟩
  · intro k hk _
    have h1 : (k == "skip") = false := by
      have : k ≠ "skip" := fun h => hskip (h ▸ hk)
      simpa using this
    have h2 : (k == "limit") = false := by
      have : k ≠ "limit" := fun h => hlimit (h ▸ hk)
      simpa using this
    rw [hfetch]
    simp only [paramGet, List.lookup_cons, h1, h2]
  · rw [hfetch]
    have hall : (exportParams currentSort e).filter
        (fun kv => kv.1 ≠ "skip" ∧ kv.1 ≠ "limit") = exportParams currentSort e := by
      rw [List.filter_eq_self]
      intro kv hkv
      have hmem : kv.1 ∈ paramKeys (exportParams currentSort e) :=
        List.mem_map.mpr ⟨kv, hkv, rfl⟩
      have h1 : kv.1 ≠ "skip" := fun h => hskip (h ▸ hmem)
      have h2 : kv.1 ≠ "limit" := fun h => hlimit (h ▸ hmem)
      simp [h1, h2]
    simpa [List.filter_cons] using hall

/-- Witness for C2: the two parameter sets of one concrete state. -/
theorem exportParams_spec_witness :
    exportParams ⟨"Tipo", "desc"⟩ ⟨"", "TASA", "", "", "", "", "", "", "seguro"⟩ =
      [("sort_by", "Tipo"), ("sort_order", "desc"), ("tipo", "TASA"), ("concepto", "seguro")]
    ∧ fetchParams 2 ⟨"Tipo", "desc"⟩ ⟨"", "TASA", "", "", "", "", "", "", "seguro"⟩ =
      ("skip", toString (((2 : Int) - 1) * 20)) :: ("limit", "20") ::
        exportParams ⟨"Tipo", "desc"⟩ ⟨"", "TASA", "", "", "", "", "", "", "seguro"⟩ :=
  ⟨by decide,
   (exportParams_spec 2 ⟨"Tipo", "desc"⟩ ⟨"", "TASA", "", "", "", "", "", "", "seguro"⟩).2.2.2.1⟩

end Tarifario

namespace Tarifario

/-! ## `fetchData` -/

/-- C3, counterexample: with page 5 requested and a response whose `current_page` is 3,
the stored `currentPage` is still 5 after `fetchData` completes. -/
theorem fetchData_currentPage_counterexample :
    (fetchData ⟨5, ⟨"Banco", "asc"⟩, [], [], []⟩
        (some ⟨[[("Banco", JVal.str "BCP")]], 41, 3, 3⟩)).currentPage = 5
    ∧ (fetchData ⟨5, ⟨"Banco", "asc"⟩, [], [], []⟩
        (some ⟨[[("Banco", JVal.str "BCP")]], 41, 3, 3⟩)).currentPage
        ≠ (Response.mk [[("Banco", JVal.str "BCP")]] 41 3 3).current_page := by
  decide

/-- C3, amended: after a successful response the stored `currentItems` are the items of
the response, the stored `currentPage`, sort spec and comparison list are unchanged, and
the `current_page` of the response is used only to render the pagination controls. -/
theorem fetchData_success (s : State) (d : Response) :
    (fetchData s (some d)).currentItems = d.items
      ∧ (fetchData s (some d)).currentPage = s.currentPage
      ∧ (fetchData s (some d)).currentSort = s.currentSort
      ∧ (fetchData s (some d)).comparisonList = s.comparisonList
      ∧ (fetchData s (some d)).paginationControls
          = renderPagination d.total_items d.total_pages d.current_page :=
  ⟨rfl, rfl, rfl, rfl, rfl⟩

/-! ## Sort header -/

/-- C8, counterexample: from sort by Banco ascending, two clicks on the sortable header
Tipo leave the direction descending. -/
theorem tableHeadClick_twice_counterexample :
    "Tipo" ∈ sortableKeys
    ∧ tableHeadClick (some "Tipo") (tableHeadClick (some "Tipo") ⟨"Banco", "asc"⟩)
        = ⟨"Tipo", "desc"⟩
    ∧ (tableHeadClick (some "Tipo") (tableHeadClick (some "Tipo") ⟨"Banco", "asc"⟩)).order
        ≠ "asc" := by
  decide

/-- C8, amended: two clicks in succession on a sortable header `c` restore the sort spec
when `c` is the active column (so the direction ends ascending exactly when it started
ascending), and leave column `c` with direction descending when `c` was not the active
column. -/
theorem tableHeadClick_twice (s : SortSpec) (c : String) (_hc : c ∈ sortableKeys)
    (hs : s.order = "asc" ∨ s.order = "desc") :
    (s.sortBy = c → tableHeadClick (some c) (tableHeadClick (some c) s) = s)
      ∧ (s.sortBy ≠ c →
          tableHeadClick (some c) (tableHeadClick (some c) s) = ⟨c, "desc"⟩) := by
  obtain ⟨b, o⟩ := s
  simp only at hs
  constructor
  · intro h
    simp only at h
    subst h
    rcases hs with h | h <;> subst h <;> simp [tableHeadClick]
  · intro h
    simp only at h
    simp [tableHeadClick, h]

/-- Witness for C8 amended: the header Banco clicked twice while Banco is active and
descending. -/
theorem tableHeadClick_twice_witness :
    tableHeadClick (some "Banco") (tableHeadClick (some "Banco") ⟨"Banco", "desc"⟩)
      = ⟨"Banco", "desc"⟩ :=
  (tableHeadClick_twice ⟨"Banco", "desc"⟩ "Banco" (by decide) (Or.inr rfl)).1 rfl

end Tarifario

namespace Tarifario

/-! ## Pagination window -/

theorem mem_pageIndices (total_pages i : Int) :
    i ∈ pageIndices total_pages ↔ 1 ≤ i ∧ i ≤ total_pages := by
  unfold pageIndices
  rw [List.mem_map]
  constructor
  · rintro ⟨k, hk, rfl⟩
    rw [List.mem_range] at hk
    constructor <;> omega
  · rintro ⟨h1, h2⟩
    refine ⟨(i - 1).toNat, ?_, ?_⟩
    · rw [List.mem_range]; omega
    · show ((i - 1).toNat : Int) + 1 = i
      omega

theorem pageIndices_pairwise (total_pages : Int) :
    (pageIndices total_pages).Pairwise (fun a b => a < b) := by
  unfold pageIndices
  rw [List.pairwise_map]
  refine (List.pairwise_lt_range _).imp ?_
  intro a b hab
  show (a : Int) + 1 < (b : Int) + 1
  omega

/-- The page a loop step displays: the step shows page `i` exactly under the window test. -/
theorem pageItem_page (total_pages current_page i : Int) :
    (pageItem total_pages current_page i).bind PageEntry.page? =
      if i ≤ 2 ∨ i ≥ total_pages - 1 ∨ (current_page - 1 ≤ i ∧ i ≤ current_page + 1)
      then some i else none := by
  unfold pageItem
  by_cases h1 : i = current_page
  · have : current_page - 1 ≤ i ∧ i ≤ current_page + 1 := by omega
    simp [h1, PageEntry.page?]
  · by_cases h2 : i ≤ 2 ∨ i ≥ total_pages - 1 ∨ (i ≥ current_page - 1 ∧ i ≤ current_page + 1)
    · have h2' : i ≤ 2 ∨ i ≥ total_pages - 1 ∨ (current_page - 1 ≤ i ∧ i ≤ current_page + 1) := h2
      rw [if_neg h1, if_pos h2, if_pos h2']
      rfl
    · have h2' : ¬ (i ≤ 2 ∨ i ≥ total_pages - 1 ∨ (current_page - 1 ≤ i ∧ i ≤ current_page + 1)) := h2
      rw [if_neg h1, if_neg h2, if_neg h2']
      by_cases h3 : i = 3 ∨ i = total_pages - 2
      · rw [if_pos h3]; rfl
      · rw [if_neg h3]; rfl

theorem pageNumbers_renderPagination (total_items total_pages current_page : Int)
    (h : 2 ≤ total_pages) :
    pageNumbers (renderPagination total_items total_pages current_page) =
      (pageIndices total_pages).filter (fun i =>
        i ≤ 2 ∨ i ≥ total_pages - 1 ∨ (current_page - 1 ≤ i ∧ i ≤ current_page + 1)) := by
  have hne : ¬ total_pages ≤ 1 := by omega
  unfold renderPagination pageNumbers
  rw [if_neg hne]
  rw [List.filterMap_append, List.filterMap_append, List.filterMap_filterMap,
    ← List.filterMap_eq_filter]
  show [] ++ _ ++ [] = _
  rw [List.nil_append, List.append_nil]
  apply List.filterMap_congr
  intro i _
  rw [pageItem_page]
  simp [Option.guard]

end Tarifario

namespace Tarifario

theorem renderPagination_total_items (total_items total_pages current_page : Int) :
    renderPagination total_items total_pages current_page =
      renderPagination 0 total_pages current_page := rfl

/-- C6: for `total_pages <= 1` the window is empty; for `total_pages >= 2` and
`1 <= current_page <= total_pages` the page entries of the window (active page and page
links) are strictly increasing and are exactly the pages `i` of `1..total_pages` with
`i <= 2`, or `i >= total_pages - 1`, or `current_page - 1 <= i <= current_page + 1`; and
the window for page 5 of 10 is 1, 2, ellipsis, 4, 5 (current), 6, ellipsis, 9, 10 between
the two outer controls. -/
theorem renderPagination_window (total_items total_pages current_page : Int) :
    (total_pages ≤ 1 → renderPagination total_items total_pages current_page = [])
    ∧ (2 ≤ total_pages → 1 ≤ current_page → current_page ≤ total_pages →
        (pageNumbers (renderPagination total_items total_pages current_page)).Pairwise
            (fun a b => a < b)
        ∧ (∀ i, i ∈ pageNumbers (renderPagination total_items total_pages current_page) ↔
            (1 ≤ i ∧ i ≤ total_pages) ∧
              (i ≤ 2 ∨ i ≥ total_pages - 1 ∨ (current_page - 1 ≤ i ∧ i ≤ current_page + 1)))
        ∧ pageNumbers (renderPagination total_items total_pages current_page) =
            (pageIndices total_pages).filter (fun i =>
              i ≤ 2 ∨ i ≥ total_pages - 1 ∨ (current_page - 1 ≤ i ∧ i ≤ current_page + 1)))
    ∧ renderPagination total_items 10 5 =
        [PageEntry.anterior false 4, PageEntry.link 1, PageEntry.link 2, PageEntry.ellipsis,
         PageEntry.link 4, PageEntry.active 5, PageEntry.link 6, PageEntry.ellipsis,
         PageEntry.link 9, PageEntry.link 10, PageEntry.siguiente false 6] := by
  refine ⟨?_, ?_, ?_⟩
  · intro h
    unfold renderPagination
    rw [if_pos h]
  · intro h _ _
    have heq := pageNumbers_renderPagination total_items total_pages current_page h
    refine ⟨?_, ?_, heq⟩
    · rw [heq]
      exact (pageIndices_pairwise total_pages).filter _
    · intro i
      rw [heq, List.mem_filter, mem_pageIndices]
      simp
  · rw [renderPagination_total_items total_items 10 5]
    decide

/-- Witness for C6: the window for page 5 of 10 pages. -/
theorem renderPagination_window_witness :
    pageNumbers (renderPagination 200 10 5) = [1, 2, 4, 5, 6, 9, 10]
    ∧ pageNumbers (renderPagination 200 10 5) =
        (pageIndices 10).filter (fun i => i ≤ 2 ∨ i ≥ 10 - 1 ∨ (5 - 1 ≤ i ∧ i ≤ 5 + 1)) :=
  ⟨by decide,
   ((renderPagination_window 200 10 5).2.1 (by decide) (by decide) (by decide)).2.2⟩

/-- C7, the code at the failing input: on page 1 of 6 pages the pages 3 and 4 form the
only gap of the window, and the window holds two ellipsis markers for it; the same on the
last page. On page 5 of 10 pages, for comparison, there are two gaps and two markers. -/
theorem renderPagination_double_ellipsis :
    renderPagination 120 6 1 =
        [PageEntry.anterior true 0, PageEntry.active 1, PageEntry.link 2,
         PageEntry.ellipsis, PageEntry.ellipsis,
         PageEntry.link 5, PageEntry.link 6, PageEntry.siguiente false 2]
    ∧ pageNumbers (renderPagination 120 6 1) = [1, 2, 5, 6]
    ∧ gapCount 6 1 = 1
    ∧ ellipsisCount (renderPagination 120 6 1) = 2
    ∧ gapCount 6 6 = 1
    ∧ ellipsisCount (renderPagination 120 6 6) = 2
    ∧ gapCount 10 5 = 2
    ∧ ellipsisCount (renderPagination 200 10 5) = 2 := by
  decide

end Tarifario

namespace Tarifario

/-! ## Page navigation targets -/

/-- C9, counterexample: on page 1 of 2 pages the previous control is an anchor with
`data-page` 0, and the click handler run on it sets `currentPage` to 0. -/
theorem renderPagination_target_counterexample :
    PageEntry.anterior true 0 ∈ renderPagination 40 2 1
    ∧ (PageEntry.anterior true 0).dataPage? = some 0
    ∧ paginationClick (PageEntry.anterior true 0) 1 = 0
    ∧ ¬ (1 ≤ paginationClick (PageEntry.anterior true 0) 1
          ∧ paginationClick (PageEntry.anterior true 0) 1 ≤ 2) := by
  decide

theorem mem_renderPagination (total_items total_pages current_page : Int)
    (h : 2 ≤ total_pages) (e : PageEntry)
    (he : e ∈ renderPagination total_items total_pages current_page) :
    e = PageEntry.anterior (current_page = 1) (current_page - 1)
      ∨ (∃ i, 1 ≤ i ∧ i ≤ total_pages ∧ pageItem total_pages current_page i = some e)
      ∨ e = PageEntry.siguiente (current_page = total_pages) (current_page + 1) := by
  have hne : ¬ total_pages ≤ 1 := by omega
  unfold renderPagination at he
  rw [if_neg hne, List.mem_append, List.mem_append, List.mem_singleton,
    List.mem_singleton, List.mem_filterMap] at he
  rcases he with (he | ⟨i, hi, hp⟩) | he
  · exact Or.inl he
  · exact Or.inr (Or.inl ⟨i, ((mem_pageIndices _ _).mp hi).1, ((mem_pageIndices _ _).mp hi).2, hp⟩)
  · exact Or.inr (Or.inr he)

theorem pageItem_dataPage (total_pages current_page i n : Int) (e : PageEntry)
    (hp : pageItem total_pages current_page i = some e) (hn : e.dataPage? = some n) :
    n = i := by
  unfold pageItem at hp
  split_ifs at hp <;> cases hp <;> simp [PageEntry.dataPage?] at hn
  exact hn.symm

/-- C9, amended: for `total_pages >= 2` and `1 <= current_page <= total_pages`, every
link of the window whose `li` is not marked `disabled` carries a `data-page` target
inside `1..total_pages`, so the click handler run on such a link sets `currentPage`
inside `1..total_pages`; the previous control carries `current_page - 1` and is marked
`disabled` exactly on page 1, the next control carries `current_page + 1` and is marked
`disabled` exactly on the last page. -/
theorem renderPagination_enabled_targets (total_items total_pages current_page : Int)
    (h : 2 ≤ total_pages) (h1 : 1 ≤ current_page) (h2 : current_page ≤ total_pages) :
    (∀ e ∈ renderPagination total_items total_pages current_page, ∀ n,
        e.dataPage? = some n → e.isDisabled = false →
          (1 ≤ n ∧ n ≤ total_pages)
          ∧ ∀ currentPage, 1 ≤ paginationClick e currentPage
              ∧ paginationClick e currentPage ≤ total_pages)
    ∧ (renderPagination total_items total_pages current_page).head?
        = some (PageEntry.anterior (current_page = 1) (current_page - 1))
    ∧ (renderPagination total_items total_pages current_page).getLast?
        = some (PageEntry.siguiente (current_page = total_pages) (current_page + 1)) := by
  refine ⟨?_, ?_, ?_⟩
  · intro e he n hn hd
    have hrange : 1 ≤ n ∧ n ≤ total_pages := by
      rcases mem_renderPagination total_items total_pages current_page h e he with
        he | ⟨i, hi1, hi2, hp⟩ | he
      · subst he
        simp only [PageEntry.dataPage?, Option.some.injEq] at hn
        simp only [PageEntry.isDisabled, decide_eq_false_iff_not] at hd
        omega
      · have := pageItem_dataPage total_pages current_page i n e hp hn
        omega
      · subst he
        simp only [PageEntry.dataPage?, Option.some.injEq] at hn
        simp only [PageEntry.isDisabled, decide_eq_false_iff_not] at hd
        omega
    refine ⟨hrange, ?_⟩
    intro currentPage
    simp only [paginationClick, hn]
    exact hrange
  · have hne : ¬ total_pages ≤ 1 := by omega
    unfold renderPagination
    rw [if_neg hne]
    rfl
  · have hne : ¬ total_pages ≤ 1 := by omega
    unfold renderPagination
    rw [if_neg hne, List.getLast?_append]
    rfl

/-- Witness for C9 amended: the window of page 1 of 2 pages. -/
theorem renderPagination_enabled_targets_witness :
    renderPagination 40 2 1 =
        [PageEntry.anterior true 0, PageEntry.active 1, PageEntry.link 2,
         PageEntry.siguiente false 2]
    ∧ (1 ≤ paginationClick (PageEntry.link 2) 1 ∧ paginationClick (PageEntry.link 2) 1 ≤ 2) :=
  ⟨by decide,
   ((renderPagination_enabled_targets 40 2 1 (by decide) (by decide) (by decide)).1
      (PageEntry.link 2) (by decide) 2 rfl rfl).2 1⟩

end Tarifario

namespace Tarifario

/-! ## Comparison list -/

theorem compareToggle_checked_absent (item : Item) (l : List Item)
    (h : ∀ x ∈ l, stringify x ≠ stringify item) :
    compareToggle item true l = l ++ [item] := by
  have hany : l.any (fun compItem => stringify compItem == stringify item) = false := by
    rw [List.any_eq_false]
    intro x hx
    simpa using h x hx
  simp [compareToggle, hany]

theorem compareToggle_checked_present (item : Item) (l : List Item)
    (h : ∃ x ∈ l, stringify x = stringify item) :
    compareToggle item true l = l := by
  have hany : l.any (fun compItem => stringify compItem == stringify item) = true := by
    rw [List.any_eq_true]
    obtain ⟨x, hx, hs⟩ := h
    exact ⟨x, hx, by simpa using hs⟩
  simp [compareToggle, hany]

theorem compareToggle_unchecked (item : Item) (l : List Item) :
    compareToggle item false l = l.filter (fun x => stringify x != stringify item) := by
  simp [compareToggle]

theorem mem_compareToggle_unchecked (item : Item) (l : List Item) (x : Item) :
    x ∈ compareToggle item false l ↔ x ∈ l ∧ stringify x ≠ stringify item := by
  rw [compareToggle_unchecked, List.mem_filter]
  simp

theorem compareCheckboxClick_of_item (currentItems l : List Item) (index : Nat) (r : Item)
    (b : Bool) (h : currentItems[index]? = some r) :
    compareCheckboxClick currentItems l index b = compareToggle r b l := by
  simp [compareCheckboxClick, h]

theorem filter_ne_self (r : Item) (l : List Item)
    (h : ∀ x ∈ l, stringify x ≠ stringify r) :
    l.filter (fun x => stringify x != stringify r) = l := by
  rw [List.filter_eq_self]
  intro x hx
  simpa using h x hx

/-- C4, counterexample: on a page showing the record `r`, with `r` already in the list
the handler run checked and then unchecked leaves the empty list, and with the empty
list the handler run unchecked and then checked leaves `r` in the list. -/
theorem compareCheckboxClick_twice_counterexample :
    ([("Banco", JVal.str "BCP")] ∈ ([[("Banco", JVal.str "BCP")]] : List Item)
      ∧ [("Banco", JVal.str "BCP")] ∉
          compareCheckboxClick [[("Banco", JVal.str "BCP")]]
            (compareCheckboxClick [[("Banco", JVal.str "BCP")]]
              [[("Banco", JVal.str "BCP")]] 0 true) 0 false)
    ∧ ([("Banco", JVal.str "BCP")] ∉ ([] : List Item)
      ∧ [("Banco", JVal.str "BCP")] ∈
          compareCheckboxClick [[("Banco", JVal.str "BCP")]]
            (compareCheckboxClick [[("Banco", JVal.str "BCP")]] [] 0 false) 0 true) := by
  decide

/-- C4, amended: for a click on the row of record `r`, the handler run checked and then
unchecked leaves the list with every entry equal to `r` removed, which is the list itself
when no entry equals `r`; run unchecked and then checked it leaves the list with those
entries removed and `r` appended, which has the same membership under the equality test
of the handler when some entry equals `r`. -/
theorem compareCheckboxClick_twice (currentItems l : List Item) (index : Nat) (r : Item)
    (h : currentItems[index]? = some r) :
    compareCheckboxClick currentItems
        (compareCheckboxClick currentItems l index true) index false
      = l.filter (fun x => stringify x != stringify r)
    ∧ ((∀ x ∈ l, ¬ sameRecord x r) →
        compareCheckboxClick currentItems
          (compareCheckboxClick currentItems l index true) index false = l)
    ∧ compareCheckboxClick currentItems
        (compareCheckboxClick currentItems l index false) index true
      = l.filter (fun x => stringify x != stringify r) ++ [r]
    ∧ ((∃ x ∈ l, sameRecord x r) → ∀ y,
        (∃ x ∈ compareCheckboxClick currentItems
            (compareCheckboxClick currentItems l index false) index true, sameRecord x y)
          ↔ ∃ x ∈ l, sameRecord x y) := by
  have hct : compareCheckboxClick currentItems
      (compareCheckboxClick currentItems l index true) index false
      = l.filter (fun x => stringify x != stringify r) := by
    rw [compareCheckboxClick_of_item _ _ _ r _ h, compareCheckboxClick_of_item _ _ _ r _ h,
      compareToggle_unchecked]
    by_cases hp : ∃ x ∈ l, stringify x = stringify r
    · rw [compareToggle_checked_present r l hp]
    · have hp' : ∀ x ∈ l, stringify x ≠ stringify r := fun x hx hs => hp ⟨x, hx, hs⟩
      rw [compareToggle_checked_absent r l hp', List.filter_append]
      simp
  have huc : compareCheckboxClick currentItems
      (compareCheckboxClick currentItems l index false) index true
      = l.filter (fun x => stringify x != stringify r) ++ [r] := by
    rw [compareCheckboxClick_of_item _ _ _ r _ h, compareCheckboxClick_of_item _ _ _ r _ h]
    apply compareToggle_checked_absent
    intro x hx
    exact ((mem_compareToggle_unchecked r l x).mp hx).2
  refine ⟨hct, ?_, huc, ?_⟩
  · intro habs
    rw [hct]
    exact filter_ne_self r l habs
  · rintro ⟨x0, hx0, hs0⟩ y
    rw [huc]
    unfold sameRecord at *
    constructor
    · rintro ⟨x, hx, hxy⟩
      rcases List.mem_append.mp hx with hx | hx
      · exact ⟨x, (List.mem_filter.mp hx).1, hxy⟩
      · rw [List.mem_singleton] at hx
        subst hx
        exact ⟨x0, hx0, hs0.trans hxy⟩
    · rintro ⟨x, hx, hxy⟩
      by_cases hxr : stringify x = stringify r
      · exact ⟨r, List.mem_append.mpr (Or.inr (List.mem_singleton.mpr rfl)), hxr.symm.trans hxy⟩
      · exact ⟨x, List.mem_append.mpr (Or.inl (List.mem_filter.mpr ⟨hx, by simpa using hxr⟩)), hxy⟩

/-- Witness for C4 amended: the record of row 0 clicked twice, starting from a list that
holds another record. -/
theorem compareCheckboxClick_twice_witness :
    compareCheckboxClick [[("Banco", JVal.str "BCP")]]
        (compareCheckboxClick [[("Banco", JVal.str "BCP")]]
          [[("Banco", JVal.str "BBVA")]] 0 true) 0 false
      = [[("Banco", JVal.str "BBVA")]] :=
  (compareCheckboxClick_twice [[("Banco", JVal.str "BCP")]] [[("Banco", JVal.str "BBVA")]] 0
    [("Banco", JVal.str "BCP")] rfl).2.1 (by decide)

end Tarifario

namespace Tarifario

theorem runCompare_append (clicks : List CompareClick) (c : CompareClick) :
    runCompare (clicks ++ [c]) =
      compareCheckboxClick c.currentItems (runCompare clicks) c.index c.isChecked := by
  simp [runCompare, List.foldl_append]

theorem selections_append (clicks : List CompareClick) (c : CompareClick) :
    selections (clicks ++ [c]) =
      selections clicks ++
        (if c.isChecked then c.currentItems[c.index]? else none).toList := by
  unfold selections
  rw [List.filterMap_append]
  cases h : (if c.isChecked then c.currentItems[c.index]? else none) <;>
    simp [List.filterMap_cons, h]

/-- One click either keeps a sublist of the list or appends the clicked record. -/
theorem compareCheckboxClick_step (currentItems l : List Item) (index : Nat) (b : Bool) :
    (compareCheckboxClick currentItems l index b).Sublist l
      ∨ ∃ item, currentItems[index]? = some item ∧ b = true
          ∧ (∀ x ∈ l, ¬ sameRecord x item)
          ∧ compareCheckboxClick currentItems l index b = l ++ [item] := by
  unfold compareCheckboxClick
  cases hi : currentItems[index]? with
  | none => exact Or.inl (List.Sublist.refl l)
  | some item =>
    cases b with
    | false =>
      left
      show (compareToggle item false l).Sublist l
      rw [compareToggle_unchecked]
      exact List.filter_sublist l
    | true =>
      by_cases hp : ∃ x ∈ l, stringify x = stringify item
      · left
        show (compareToggle item true l).Sublist l
        rw [compareToggle_checked_present item l hp]
      · right
        have hp' : ∀ x ∈ l, stringify x ≠ stringify item := fun x hx hs => hp ⟨x, hx, hs⟩
        exact ⟨item, rfl, rfl, hp', compareToggle_checked_absent item l hp'⟩

theorem pairwise_compareCheckboxClick (currentItems l : List Item) (index : Nat) (b : Bool)
    (h : l.Pairwise (fun a b => ¬ sameRecord a b)) :
    (compareCheckboxClick currentItems l index b).Pairwise (fun a b => ¬ sameRecord a b) := by
  rcases compareCheckboxClick_step currentItems l index b with hs | ⟨item, _, _, habs, heq⟩
  · exact h.sublist hs
  · rw [heq, List.pairwise_append]
    refine ⟨h, List.pairwise_singleton _ _, ?_⟩
    intro a ha x hx
    rw [List.mem_singleton] at hx
    subst hx
    exact habs a ha

/-- C5: starting from the empty list, after any sequence of compare-checkbox clicks no
two entries of the comparison list are equal under the equality test of the handler (so
no record occurs twice); the list is a subsequence of the records selected by the checking clicks, in click order; and
each further click either leaves a subsequence of the list or appends the clicked record
at the end. -/
theorem runCompare_invariant (clicks : List CompareClick) :
    (runCompare clicks).Pairwise (fun a b => ¬ sameRecord a b)
    ∧ (runCompare clicks).Nodup
    ∧ (runCompare clicks).Sublist (selections clicks)
    ∧ ∀ c : CompareClick,
        (runCompare (clicks ++ [c])).Sublist (runCompare clicks)
        ∨ ∃ item, c.currentItems[c.index]? = some item ∧ c.isChecked = true
            ∧ runCompare (clicks ++ [c]) = runCompare clicks ++ [item] := by
  have hpw : (runCompare clicks).Pairwise (fun a b => ¬ sameRecord a b) := by
    induction clicks using List.reverseRecOn with
    | nil => exact List.Pairwise.nil
    | append_singleton cs c ih =>
      rw [runCompare_append]
      exact pairwise_compareCheckboxClick _ _ _ _ ih
  refine ⟨hpw, hpw.imp (fun hab heq => hab (congrArg stringify heq)), ?_, ?_⟩
  · clear hpw
    induction clicks using List.reverseRecOn with
    | nil => exact List.Sublist.refl _
    | append_singleton cs c ih =>
      rw [runCompare_append, selections_append]
      rcases compareCheckboxClick_step c.currentItems (runCompare cs) c.index c.isChecked with
        hs | ⟨item, hi, hb, _, heq⟩
      · exact (hs.trans ih).trans (List.sublist_append_left _ _)
      · rw [heq, hb, if_pos rfl, hi]
        exact ih.append (List.Sublist.refl _)
  · intro c
    rw [runCompare_append]
    rcases compareCheckboxClick_step c.currentItems (runCompare clicks) c.index c.isChecked with
      hs | ⟨item, hi, hb, _, heq⟩
    · exact Or.inl hs
    · exact Or.inr ⟨item, hi, hb, heq⟩

end Tarifario


namespace Tarifario

/-! ## Comparison table -/

theorem foldl_append_eq {α : Type} (f : α → String) :
    ∀ (l : List α) (init : String),
      l.foldl (fun html x => html ++ f x) init = init ++ concatAll (l.map f)
  | [], init => by simp [concatAll]
  | x :: rest, init => by
    rw [List.foldl_cons, foldl_append_eq f rest, List.map_cons, concatAll,
      String.append_assoc]

theorem row_step_eq (proto : Prototype) (records : List Item) (html attr : String) :
    (records.foldl (fun tableHtml item =>
        tableHtml ++ ("<td>" ++ toText (cellValue proto item attr) ++ "</td>"))
      (html ++ ("<tr><td class=\"fw-bold table-light\">" ++ underscoresToSpaces attr
        ++ "</td>"))) ++ "</tr>"
      = html ++ rowMarkup proto records attr := by
  rw [foldl_append_eq (fun item => "<td>" ++ toText (cellValue proto item attr) ++ "</td>")]
  simp only [rowMarkup, String.append_assoc]
  rfl

theorem foldl_rows_eq (proto : Prototype) (records : List Item) :
    ∀ (attrs : List String) (init : String),
      attrs.foldl (fun tableHtml attr =>
        if attr = "Producto_Codigo" then tableHtml
        else
          (records.foldl (fun tableHtml item =>
              tableHtml ++ ("<td>" ++ toText (cellValue proto item attr) ++ "</td>"))
            (tableHtml ++ ("<tr><td class=\"fw-bold table-light\">"
              ++ underscoresToSpaces attr ++ "</td>"))) ++ "</tr>") init
      = init ++ concatAll
          ((attrs.filter (fun attr => attr ≠ "Producto_Codigo")).map
            (rowMarkup proto records))
  | [], init => by simp [concatAll]
  | attr :: rest, init => by
    rw [List.foldl_cons]
    by_cases h : attr = "Producto_Codigo"
    · rw [if_pos h, foldl_rows_eq proto records rest]
      simp [h]
    · rw [if_neg h, row_step_eq, foldl_rows_eq proto records rest]
      simp [h, concatAll, String.append_assoc]

theorem renderComparisonModal_eq (proto : Prototype) (currentItems comparisonList : List Item) :
    renderComparisonModal proto currentItems comparisonList =
      tableMarkup proto
        ((attributes currentItems).filter (fun attr => attr ≠ "Producto_Codigo"))
        comparisonList := by
  unfold renderComparisonModal tableMarkup
  simp only []
  rw [foldl_rows_eq proto comparisonList,
    foldl_append_eq (fun item =>
      "<th class=\"table-light\">" ++ toText (headerValue proto item) ++ "</th>")]
  rfl

theorem cellValue_spec (proto : Prototype) (item : Item) (attr : String) :
    (itemProp proto item attr = JsValue.undefined
        ∨ itemProp proto item attr = JsValue.json JVal.null →
        cellValue proto item attr = JsValue.json (JVal.str "-"))
    ∧ (itemProp proto item attr ≠ JsValue.undefined →
        itemProp proto item attr ≠ JsValue.json JVal.null →
        cellValue proto item attr = itemProp proto item attr) := by
  constructor
  · rintro (h | h) <;> simp [cellValue, h]
  · intro h1 h2
    unfold cellValue
    split
    · next h => exact absurd h h1
    · next h => exact absurd h h2
    · rfl

theorem itemProp_spec (proto : Prototype) (item : Item) (attr : String) :
    (∀ v, List.lookup attr item = some v → itemProp proto item attr = JsValue.json v)
    ∧ (∀ text, List.lookup attr item = none → List.lookup attr proto = some text →
        itemProp proto item attr = JsValue.inherited text)
    ∧ (List.lookup attr item = none → List.lookup attr proto = none →
        itemProp proto item attr = JsValue.undefined) := by
  refine ⟨?_, ?_, ?_⟩
  · intro v h; simp [itemProp, h]
  · intro text h1 h2; simp [itemProp, h1, h2]
  · intro h1 h2; simp [itemProp, h1, h2]

set_option maxRecDepth 1000000 in
/-- C10, counterexample: with two selected records that have the keys Banco and Tipo, an
empty current page gives a table without body rows, and a current page whose first record
has the single key Concepto gives the one row of Concepto; neither is the table with the
rows Banco and Tipo of the first selected record. And the cell of a record without an own
property `constructor` holds the inherited member, not the placeholder. -/
theorem renderComparisonModal_rows_counterexample :
    (renderComparisonModal [("constructor", "function Object() \x7b [native code] \x7d")] []
        [[("Banco", JVal.str "BCP"), ("Tipo", JVal.str "TASA")],
         [("Banco", JVal.str "BBVA"), ("Tipo", JVal.str "GASTO")]]
      = "<div class=\"table-responsive\"><table class=\"table table-bordered table-hover\">"
          ++ "<thead><tr><th class=\"table-light\">Atributo</th>"
          ++ "<th class=\"table-light\">undefined</th><th class=\"table-light\">undefined</th>"
          ++ "</tr></thead><tbody></tbody></table></div>")
    ∧ (renderComparisonModal [("constructor", "function Object() \x7b [native code] \x7d")] []
        [[("Banco", JVal.str "BCP"), ("Tipo", JVal.str "TASA")],
         [("Banco", JVal.str "BBVA"), ("Tipo", JVal.str "GASTO")]]
      ≠ tableMarkup [("constructor", "function Object() \x7b [native code] \x7d")]
          ((itemKeys [("Banco", JVal.str "BCP"), ("Tipo", JVal.str "TASA")]).filter
            (fun attr => attr ≠ "Producto_Codigo"))
          [[("Banco", JVal.str "BCP"), ("Tipo", JVal.str "TASA")],
           [("Banco", JVal.str "BBVA"), ("Tipo", JVal.str "GASTO")]])
    ∧ (renderComparisonModal [("constructor", "function Object() \x7b [native code] \x7d")]
        [[("Concepto", JVal.str "Mantenimiento")]]
        [[("Banco", JVal.str "BCP"), ("Tipo", JVal.str "TASA")],
         [("Banco", JVal.str "BBVA"), ("Tipo", JVal.str "GASTO")]]
      = tableMarkup [("constructor", "function Object() \x7b [native code] \x7d")]
          ["Concepto"]
          [[("Banco", JVal.str "BCP"), ("Tipo", JVal.str "TASA")],
           [("Banco", JVal.str "BBVA"), ("Tipo", JVal.str "GASTO")]])
    ∧ (renderComparisonModal [("constructor", "function Object() \x7b [native code] \x7d")]
        [[("Concepto", JVal.str "Mantenimiento")]]
        [[("Banco", JVal.str "BCP"), ("Tipo", JVal.str "TASA")],
         [("Banco", JVal.str "BBVA"), ("Tipo", JVal.str "GASTO")]]
      ≠ tableMarkup [("constructor", "function Object() \x7b [native code] \x7d")]
          ((itemKeys [("Banco", JVal.str "BCP"), ("Tipo", JVal.str "TASA")]).filter
            (fun attr => attr ≠ "Producto_Codigo"))
          [[("Banco", JVal.str "BCP"), ("Tipo", JVal.str "TASA")],
           [("Banco", JVal.str "BBVA"), ("Tipo", JVal.str "GASTO")]])
    ∧ (List.lookup "constructor" ([("Banco", JVal.str "BBVA")] : Item) = none
      ∧ cellValue [("constructor", "function Object() \x7b [native code] \x7d")]
          [("Banco", JVal.str "BBVA")] "constructor"
        = JsValue.inherited "function Object() \x7b [native code] \x7d"
      ∧ cellValue [("constructor", "function Object() \x7b [native code] \x7d")]
          [("Banco", JVal.str "BBVA")] "constructor"
        ≠ JsValue.json (JVal.str "-")) := by
  decide

/-- C10, amended: with at least 2 records in the comparison list, the markup written by
`renderComparisonModal` is the table with one body row per attribute key of the first
record of the current page (`currentItems[0]`, no body row when the page is empty), in
the key order of that record and with Producto_Codigo excluded, and in every row one `td`
per selected record in selection order. The `td` for attribute `a` and record `r` holds
the text of `r[a]`, written without escaping: the own value of `r` for `a`, a member
inherited from `Object.prototype` when `r` has no own property `a` and `a` names one, and
the text `-` when `r[a]` is null or undefined. When the first selected record is the
first record of the page, the rows are those of the keys of the first selected record. -/
theorem renderComparisonModal_spec (proto : Prototype) (currentItems comparisonList : List Item)
    (_h : 2 ≤ comparisonList.length) :
    renderComparisonModal proto currentItems comparisonList
        = tableMarkup proto
            ((attributes currentItems).filter (fun attr => attr ≠ "Producto_Codigo"))
            comparisonList
    ∧ (∀ first, currentItems[0]? = some first → attributes currentItems = itemKeys first)
    ∧ (currentItems = [] → attributes currentItems = [])
    ∧ (∀ attrs, tableMarkup proto attrs comparisonList
        = "<div class=\"table-responsive\"><table class=\"table table-bordered table-hover\">"
            ++ "<thead><tr><th class=\"table-light\">Atributo</th>"
            ++ concatAll (comparisonList.map (fun item =>
                "<th class=\"table-light\">" ++ toText (headerValue proto item) ++ "</th>"))
            ++ "</tr></thead>" ++ "<tbody>"
            ++ concatAll (attrs.map (rowMarkup proto comparisonList))
            ++ "</tbody></table></div>")
    ∧ (∀ attr, rowMarkup proto comparisonList attr
        = "<tr><td class=\"fw-bold table-light\">" ++ underscoresToSpaces attr ++ "</td>"
            ++ concatAll (comparisonList.map (fun item =>
                "<td>" ++ toText (cellValue proto item attr) ++ "</td>"))
            ++ "</tr>")
    ∧ (∀ item attr,
        (itemProp proto item attr = JsValue.undefined
            ∨ itemProp proto item attr = JsValue.json JVal.null →
          cellValue proto item attr = JsValue.json (JVal.str "-"))
        ∧ (itemProp proto item attr ≠ JsValue.undefined →
            itemProp proto item attr ≠ JsValue.json JVal.null →
            cellValue proto item attr = itemProp proto item attr))
    ∧ (∀ item attr,
        (∀ v, List.lookup attr item = some v → itemProp proto item attr = JsValue.json v)
        ∧ (∀ text, List.lookup attr item = none → List.lookup attr proto = some text →
            itemProp proto item attr = JsValue.inherited text)
        ∧ (List.lookup attr item = none → List.lookup attr proto = none →
            itemProp proto item attr = JsValue.undefined))
    ∧ (∀ first, currentItems[0]? = some first → comparisonList[0]? = some first →
        renderComparisonModal proto currentItems comparisonList
          = tableMarkup proto
              ((itemKeys first).filter (fun attr => attr ≠ "Producto_Codigo"))
              comparisonList) := by
  have hattr : ∀ first, currentItems[0]? = some first →
      attributes currentItems = itemKeys first := by
    intro first hf
    simp [attributes, hf]
  refine ⟨renderComparisonModal_eq proto currentItems comparisonList, hattr, ?_, ?_, ?_,
    cellValue_spec proto, itemProp_spec proto, ?_⟩
  · intro he
    subst he
    rfl
  · intro attrs
    rfl
  · intro attr
    rfl
  · intro first hf _
    rw [renderComparisonModal_eq, hattr first hf]

set_option maxRecDepth 1000000 in
/-- Witness for C10 amended: two selected records on a page whose first record is the
first selected one; the second record has null for Tipo and a value with markup for Banco. -/
theorem renderComparisonModal_spec_witness :
    (renderComparisonModal [("constructor", "function Object() \x7b [native code] \x7d")]
        [[("Banco", JVal.str "BCP"), ("Producto_Codigo", JVal.num "7"), ("Tipo", JVal.str "TASA")]]
        [[("Banco", JVal.str "BCP"), ("Producto_Codigo", JVal.num "7"), ("Tipo", JVal.str "TASA")],
         [("Banco", JVal.str "<b>BBVA</b>"), ("Tipo", JVal.null)]]
      = "<div class=\"table-responsive\"><table class=\"table table-bordered table-hover\">"
          ++ "<thead><tr><th class=\"table-light\">Atributo</th>"
          ++ "<th class=\"table-light\">undefined</th><th class=\"table-light\">undefined</th>"
          ++ "</tr></thead><tbody>"
          ++ "<tr><td class=\"fw-bold table-light\">Banco</td><td>BCP</td><td><b>BBVA</b></td></tr>"
          ++ "<tr><td class=\"fw-bold table-light\">Tipo</td><td>TASA</td><td>-</td></tr>"
          ++ "</tbody></table></div>")
    ∧ renderComparisonModal [("constructor", "function Object() \x7b [native code] \x7d")]
        [[("Banco", JVal.str "BCP"), ("Producto_Codigo", JVal.num "7"), ("Tipo", JVal.str "TASA")]]
        [[("Banco", JVal.str "BCP"), ("Producto_Codigo", JVal.num "7"), ("Tipo", JVal.str "TASA")],
         [("Banco", JVal.str "<b>BBVA</b>"), ("Tipo", JVal.null)]]
      = tableMarkup [("constructor", "function Object() \x7b [native code] \x7d")]
          ((attributes
            [[("Banco", JVal.str "BCP"), ("Producto_Codigo", JVal.num "7"),
              ("Tipo", JVal.str "TASA")]]).filter (fun attr => attr ≠ "Producto_Codigo"))
          [[("Banco", JVal.str "BCP"), ("Producto_Codigo", JVal.num "7"), ("Tipo", JVal.str "TASA")],
           [("Banco", JVal.str "<b>BBVA</b>"), ("Tipo", JVal.null)]] :=
  ⟨by decide,
   (renderComparisonModal_spec [("constructor", "function Object() \x7b [native code] \x7d")]
      [[("Banco", JVal.str "BCP"), ("Producto_Codigo", JVal.num "7"), ("Tipo", JVal.str "TASA")]]
      [[("Banco", JVal.str "BCP"), ("Producto_Codigo", JVal.num "7"), ("Tipo", JVal.str "TASA")],
       [("Banco", JVal.str "<b>BBVA</b>"), ("Tipo", JVal.null)]] (by decide)).1⟩

end Tarifario
